import Mathlib

/-!
Verification of the PMG1 SPI-slave firmware (`source/main.c`) against its
natural-language specification.

The embedding models the per-iteration control loop of `main` and the
`update_led` helper from `main.c` directly.  The transport layer
(`SpiSlave.c`: `init_slave`, `read_packet`, the `PACKET_*` constants) and the
board-support header (`CYBSP_LED_STATE_*`) are not part of the repository
snapshot, so those definitions are modelled from the specification, as marked
in their doc comments.
-/

namespace SpiSlave

/-- Modelled from the spec: `PACKET_SOP` from the missing `SpiSlave.h`;
the Start-of-Packet marker byte, fixed value 0x01 (spec section 6). -/
def PACKET_SOP : Nat := 0x01

/-- Modelled from the spec: `PACKET_EOP` from the missing `SpiSlave.h`;
the End-of-Packet marker byte, fixed value 0x17 (spec section 6). -/
def PACKET_EOP : Nat := 0x17

/-- Modelled from the spec: `CYBSP_LED_STATE_ON` from the missing BSP header;
the payload value commanding ON is 0x01 (spec section 6 wire-format table). -/
def CYBSP_LED_STATE_ON : Nat := 0x01

/-- Modelled from the spec: `CYBSP_LED_STATE_OFF` from the missing BSP header;
the payload value commanding OFF is 0x00 (spec section 6 wire-format table). -/
def CYBSP_LED_STATE_OFF : Nat := 0x00

/-- A 3-byte transfer buffer (`uint8_t buf[3]` in `main.c`): byte 0 is the
SOP position, byte 1 the command/payload position, byte 2 the EOP position. -/
structure Packet where
  byte0 : Nat
  byte1 : Nat
  byte2 : Nat
deriving DecidableEq, Inhabited

/-- Modelled from the spec: the framing validation performed inside the
missing `SpiSlave.c` (`read_packet`): a buffer is valid iff byte 0 equals
`PACKET_SOP` and byte 2 equals `PACKET_EOP`; the payload byte is not
inspected (spec section 4.1, `validate`). -/
def validate (b : Packet) : Bool :=
  b.byte0 == PACKET_SOP && b.byte2 == PACKET_EOP

/-- The outbound status packet the loop forms at `main.c:173-175`:
`tx[0] = PACKET_SOP; tx[1] = payload; tx[2] = PACKET_EOP`
(the spec's `build(payload)`). -/
def build (payload : Nat) : Packet :=
  { byte0 := PACKET_SOP, byte1 := payload, byte2 := PACKET_EOP }

/-- Result of one blocking full-duplex transfer as reported by the transport
layer beneath `read_packet` (spec section 4.4 `TransferResult`). -/
inductive TransferResult where
  | complete
  | incomplete
  | fault
deriving DecidableEq, Inhabited

/-- The environment input consumed by one loop iteration: the transport
outcome of the blocking 3-byte exchange and the bytes the master drove
(meaningful when the transfer completed). -/
structure Exchange where
  result : TransferResult
  rx : Packet
deriving DecidableEq, Inhabited

/-- Status codes returned by `read_packet` (`TRANSFER_COMPLETE` /
`TRANSFER_FAILURE` of the missing `SpiSlave.h`). -/
inductive RwStatus where
  | TRANSFER_COMPLETE
  | TRANSFER_FAILURE
deriving DecidableEq, Inhabited

/-- Modelled from the spec: the status computation of the missing
`read_packet` in `SpiSlave.c`.  It reports `TRANSFER_COMPLETE` iff the
blocking exchange completed as a clean 3-byte transaction and the received
buffer passes SOP/EOP framing validation (spec section 4.2 step 3 and the
`main.c:180-181` comment about receiving the required number of bytes in the
right format). -/
def read_packet_status (e : Exchange) : RwStatus :=
  if e.result = TransferResult.complete ∧ validate e.rx then
    RwStatus.TRANSFER_COMPLETE
  else
    RwStatus.TRANSFER_FAILURE

/-- A GPIO write on the user-LED pin: `Cy_GPIO_Clr` drives the (active-low)
LED on, `Cy_GPIO_Set` drives it off (`main.c:223,229`). -/
inductive GpioWrite where
  | clr
  | set
deriving DecidableEq, Inhabited

/-- Physical illumination state of the user LED. -/
inductive Led where
  | on
  | off
deriving DecidableEq, Inhabited

/-- Effect of one GPIO write on the active-low LED. -/
def applyWrite (_led : Led) : GpioWrite → Led
  | GpioWrite.clr => Led.on
  | GpioWrite.set => Led.off

/-- Effect of a sequence of GPIO writes on the LED. -/
def applyWrites (led : Led) : List GpioWrite → Led
  | [] => led
  | w :: ws => applyWrites (applyWrite led w) ws

/-- `update_led` (`main.c:217-231`): the list of GPIO writes it performs for
a given command byte.  It clears the pin (LED on) when the command equals
`CYBSP_LED_STATE_ON`, sets the pin (LED off) when the command equals
`CYBSP_LED_STATE_OFF`, and performs no write for any other command. -/
def update_led (cmd : Nat) : List GpioWrite :=
  (if cmd = CYBSP_LED_STATE_ON then [GpioWrite.clr] else []) ++
    (if cmd = CYBSP_LED_STATE_OFF then [GpioWrite.set] else [])

/-- The state carried across loop iterations in `main`: the two reused
3-byte buffers, the physical LED, and whether the `CY_ASSERT` trap has been
entered. -/
structure LoopState where
  rx : Packet
  tx : Packet
  led : Led
  halted : Bool
deriving DecidableEq, Inhabited

/-- The state at loop entry: both buffers zero-initialized (`main.c:132-133`)
and the LED at its board-default OFF state. -/
def initState : LoopState :=
  { rx := { byte0 := 0, byte1 := 0, byte2 := 0 }
    tx := { byte0 := 0, byte1 := 0, byte2 := 0 }
    led := Led.off
    halted := false }

/-- Observable events of one loop iteration: the outbound packet handed to
`read_packet`, the command `update_led` was invoked with (if any), the LED
state after the iteration, and whether the iteration hit the assert trap. -/
structure IterOut where
  sent : Packet
  ledCall : Option Nat
  ledAfter : Led
  trapped : Bool
deriving DecidableEq, Inhabited

/-- One iteration of the `for (;;)` body (`main.c:170-198`): form the status
packet from the previously received command byte, perform the exchange via
`read_packet`, then either update the LED (on `TRANSFER_COMPLETE`) or enter
the `CY_ASSERT` trap. -/
def loopStep (s : LoopState) (e : Exchange) : IterOut × LoopState :=
  let tx := build s.rx.byte1
  let rx' := if e.result = TransferResult.complete then e.rx else s.rx
  if read_packet_status e = RwStatus.TRANSFER_COMPLETE then
    let led' := applyWrites s.led (update_led rx'.byte1)
    ({ sent := tx, ledCall := some rx'.byte1, ledAfter := led', trapped := false },
      { rx := rx', tx := tx, led := led', halted := false })
  else
    ({ sent := tx, ledCall := none, ledAfter := s.led, trapped := true },
      { rx := rx', tx := tx, led := s.led, halted := true })

/-- The loop run on a finite prefix of environment inputs.  A halted state
(inside the `CY_ASSERT` trap) consumes no further input and produces no
further observable events. -/
def runLoop (s : LoopState) : List Exchange → List IterOut × LoopState
  | [] => ([], s)
  | e :: es =>
    if s.halted then ([], s)
    else
      let p := loopStep s e
      let r := runLoop p.2 es
      (p.1 :: r.1, r.2)

/-- `CY_RSLT_SUCCESS`, the success value of `cybsp_init` (`main.c:136-140`). -/
def CY_RSLT_SUCCESS : Nat := 0

/-- Modelled from the spec: the status codes of the missing `init_slave` in
`SpiSlave.c` (`INIT_SUCCESS` / `INIT_FAILURE`), returned once at startup
(spec section 6). -/
inductive InitStatus where
  | INIT_SUCCESS
  | INIT_FAILURE
deriving DecidableEq, Inhabited

/-- Outcome of `main`: either trapped during initialization (before the loop
is ever entered), or the loop ran and produced a trace. -/
inductive MainOutcome where
  | trappedAtInit
  | ran (trace : List IterOut) (final : LoopState)
deriving DecidableEq, Inhabited

/-- `main` (`main.c:125-199`): board init, SPI-slave init, then the forever
loop.  A failing `cybsp_init` or an `INIT_FAILURE` from `init_slave` hits
`CY_ASSERT` before the loop, so no exchange and no actuation ever happen. -/
def main_model (bspResult : Nat) (slaveStatus : InitStatus)
    (inputs : List Exchange) : MainOutcome :=
  if bspResult ≠ CY_RSLT_SUCCESS then MainOutcome.trappedAtInit
  else if slaveStatus = InitStatus.INIT_FAILURE then MainOutcome.trappedAtInit
  else
    let r := runLoop initState inputs
    MainOutcome.ran r.1 r.2

/-- The payload byte encoding of an LED (output) state, per the spec's wire
format: ON is 0x01, OFF is 0x00. -/
def ledPayload : Led → Nat
  | Led.on => CYBSP_LED_STATE_ON
  | Led.off => CYBSP_LED_STATE_OFF

/-! ## Helper lemmas -/

theorem read_packet_status_complete_iff (e : Exchange) :
    read_packet_status e = RwStatus.TRANSFER_COMPLETE ↔
      (e.result = TransferResult.complete ∧ validate e.rx = true) := by
  unfold read_packet_status
  split <;> simp_all

theorem loopStep_sent (s : LoopState) (e : Exchange) :
    (loopStep s e).1.sent = build s.rx.byte1 := by
  unfold loopStep
  split <;> split <;> rfl

theorem loopStep_success (s : LoopState) (e : Exchange)
    (h : read_packet_status e = RwStatus.TRANSFER_COMPLETE) :
    loopStep s e =
      ({ sent := build s.rx.byte1, ledCall := some e.rx.byte1,
         ledAfter := applyWrites s.led (update_led e.rx.byte1), trapped := false },
       { rx := e.rx, tx := build s.rx.byte1,
         led := applyWrites s.led (update_led e.rx.byte1), halted := false }) := by
  have hres := (read_packet_status_complete_iff e).1 h
  simp [loopStep, h, hres.1]

theorem loopStep_failure (s : LoopState) (e : Exchange)
    (h : read_packet_status e ≠ RwStatus.TRANSFER_COMPLETE) :
    loopStep s e =
      ({ sent := build s.rx.byte1, ledCall := none,
         ledAfter := s.led, trapped := true },
       { rx := if e.result = TransferResult.complete then e.rx else s.rx,
         tx := build s.rx.byte1, led := s.led, halted := true }) := by
  simp [loopStep, h]

theorem runLoop_halted (s : LoopState) (h : s.halted = true)
    (es : List Exchange) : runLoop s es = ([], s) := by
  cases es <;> simp [runLoop, h]

theorem runLoop_cons_active (s : LoopState) (h : s.halted = false)
    (e : Exchange) (es : List Exchange) :
    runLoop s (e :: es) =
      ((loopStep s e).1 :: (runLoop (loopStep s e).2 es).1,
       (runLoop (loopStep s e).2 es).2) := by
  simp [runLoop, h]

theorem runLoop_sent_wellFormed (es : List Exchange) :
    ∀ (s : LoopState) (out : IterOut), out ∈ (runLoop s es).1 →
      out.sent.byte0 = PACKET_SOP ∧ out.sent.byte2 = PACKET_EOP := by
  induction es with
  | nil =>
    intro s out h
    simp [runLoop] at h
  | cons e es ih =>
    intro s out h
    cases hhal : s.halted with
    | true =>
      rw [runLoop_halted s hhal] at h
      simp at h
    | false =>
      rw [runLoop_cons_active s hhal] at h
      rcases List.mem_cons.1 h with h0 | h1
      · subst h0
        rw [loopStep_sent]
        exact ⟨rfl, rfl⟩
      · exact ih _ _ h1

/-! ## Claim theorems -/

/-- C5: packet validation is exactly the SOP/EOP framing check —
`validate` returns true iff byte 0 is 0x01 and byte 2 is 0x17, regardless of
the payload byte. -/
theorem claim_C5_validate_iff (b : Packet) :
    validate b = true ↔ (b.byte0 = 0x01 ∧ b.byte2 = 0x17) := by
  simp [validate, PACKET_SOP, PACKET_EOP]

/-- Witness for C5: a concrete well-framed packet with an arbitrary payload
byte is accepted. -/
theorem claim_C5_validate_iff_witness :
    validate { byte0 := 0x01, byte1 := 0x42, byte2 := 0x17 } = true :=
  (claim_C5_validate_iff { byte0 := 0x01, byte1 := 0x42, byte2 := 0x17 }).2
    ⟨rfl, rfl⟩

/-- C6: round-trip framing validity — for every payload byte `p`,
`build p` is the sequence `[0x01, p, 0x17]` and passes validation; moreover
every outbound packet the control loop constructs is well-formed (byte 0 is
0x01 and byte 2 is 0x17) in every iteration of every run. -/
theorem claim_C6_roundtrip :
    (∀ p : Nat, build p = { byte0 := 0x01, byte1 := p, byte2 := 0x17 } ∧
       validate (build p) = true) ∧
    (∀ (inputs : List Exchange) (out : IterOut),
       out ∈ (runLoop initState inputs).1 →
         out.sent.byte0 = 0x01 ∧ out.sent.byte2 = 0x17) := by
  constructor
  · intro p
    exact ⟨rfl, rfl⟩
  · intro inputs out h
    exact runLoop_sent_wellFormed inputs initState out h

/-- Witness for C6: the universally quantified parts evaluated on a concrete
payload and a concrete one-exchange run. -/
theorem claim_C6_roundtrip_witness :
    validate (build 0xAB) = true ∧
    ({ sent := { byte0 := 0x01, byte1 := 0, byte2 := 0x17 },
       ledCall := some 1, ledAfter := Led.on, trapped := false } : IterOut).sent.byte0 = 0x01 :=
  ⟨(claim_C6_roundtrip.1 0xAB).2,
   (claim_C6_roundtrip.2 [⟨TransferResult.complete, ⟨0x01, 0x01, 0x17⟩⟩] _
     (by decide)).1⟩

/-- C3: given a successfully exchanged inbound packet `[0x01, 0x01, 0x17]`
the actuator is set to ON and the next outbound packet's payload is 0x01;
given `[0x01, 0x00, 0x17]` the actuator is set to OFF and the next outbound
packet's payload is 0x00.  Shown on the full trace of a three-exchange run:
iteration 1 receives the ON command (LED ends on, iteration 2 sends payload
0x01), iteration 2 receives the OFF command (LED ends off, iteration 3 sends
payload 0x00). -/
theorem claim_C3_on_off_commands :
    (runLoop initState
      [⟨TransferResult.complete, ⟨0x01, 0x01, 0x17⟩⟩,
       ⟨TransferResult.complete, ⟨0x01, 0x00, 0x17⟩⟩,
       ⟨TransferResult.complete, ⟨0x01, 0x00, 0x17⟩⟩]).1 =
    [{ sent := build 0x00, ledCall := some 0x01, ledAfter := Led.on, trapped := false },
     { sent := build 0x01, ledCall := some 0x00, ledAfter := Led.off, trapped := false },
     { sent := build 0x00, ledCall := some 0x00, ledAfter := Led.off, trapped := false }] := by
  decide

/-- Counterexample to C2 as stated: C2 claims the actuator is driven OFF for
every payload other than 0x01, but after a validated exchange with payload
0x02 the LED (previously driven on) stays on — `update_led` writes nothing
for payloads outside {0x00, 0x01}. -/
theorem claim_C2_counterexample :
    ((runLoop initState
      [⟨TransferResult.complete, ⟨0x01, 0x01, 0x17⟩⟩,
       ⟨TransferResult.complete, ⟨0x01, 0x02, 0x17⟩⟩]).1.getD 1 default).ledCall =
        some 0x02 ∧
    ((runLoop initState
      [⟨TransferResult.complete, ⟨0x01, 0x01, 0x17⟩⟩,
       ⟨TransferResult.complete, ⟨0x01, 0x02, 0x17⟩⟩]).1.getD 1 default).ledAfter ≠
        Led.off := by
  decide

/-- C2 (amended): on every validated exchange the loop calls
`update_led rx[1]`, which drives the actuator ON iff the payload equals
`CYBSP_LED_STATE_ON` (0x01) and OFF iff it equals `CYBSP_LED_STATE_OFF`
(0x00), leaving the output unchanged for every other payload; the raw
payload byte is recorded and echoed as the next outbound packet's payload. -/
theorem claim_C2_amended (s : LoopState) (e : Exchange)
    (h : read_packet_status e = RwStatus.TRANSFER_COMPLETE) :
    (loopStep s e).1.ledCall = some e.rx.byte1 ∧
    (loopStep s e).2.led = applyWrites s.led (update_led e.rx.byte1) ∧
    (e.rx.byte1 = CYBSP_LED_STATE_ON → (loopStep s e).2.led = Led.on) ∧
    (e.rx.byte1 = CYBSP_LED_STATE_OFF → (loopStep s e).2.led = Led.off) ∧
    (e.rx.byte1 ≠ CYBSP_LED_STATE_ON → e.rx.byte1 ≠ CYBSP_LED_STATE_OFF →
       (loopStep s e).2.led = s.led) ∧
    (loopStep s e).2.rx.byte1 = e.rx.byte1 ∧
    (∀ e2 : Exchange, (loopStep (loopStep s e).2 e2).1.sent.byte1 = e.rx.byte1) := by
  rw [loopStep_success s e h]
  refine ⟨rfl, rfl, ?_, ?_, ?_, rfl, ?_⟩
  · intro h1
    simp [update_led, h1, CYBSP_LED_STATE_ON, CYBSP_LED_STATE_OFF,
      applyWrites, applyWrite]
  · intro h0
    simp [update_led, h0, CYBSP_LED_STATE_ON, CYBSP_LED_STATE_OFF,
      applyWrites, applyWrite]
  · intro h1 h0
    simp [update_led, h1, h0, applyWrites]
  · intro e2
    rw [loopStep_sent]
    rfl

/-- Witness for C2 (amended): a validated exchange with the out-of-domain
payload 0x02 leaves the LED exactly as it was. -/
theorem claim_C2_amended_witness :
    (loopStep initState ⟨TransferResult.complete, ⟨0x01, 0x02, 0x17⟩⟩).2.led =
      initState.led :=
  (claim_C2_amended initState ⟨TransferResult.complete, ⟨0x01, 0x02, 0x17⟩⟩
      (by decide)).2.2.2.2.1 (by decide) (by decide)

/-- C9: for a validated exchange whose payload is neither
`CYBSP_LED_STATE_ON` nor `CYBSP_LED_STATE_OFF`, `update_led` performs no
GPIO write and the physical LED keeps its previous state, yet the raw
payload byte is echoed as the next outbound packet's payload, so the
reported status can differ from the actual output state. -/
theorem claim_C9_out_of_domain_echo (s : LoopState) (e e2 : Exchange)
    (h : read_packet_status e = RwStatus.TRANSFER_COMPLETE)
    (h1 : e.rx.byte1 ≠ CYBSP_LED_STATE_ON)
    (h0 : e.rx.byte1 ≠ CYBSP_LED_STATE_OFF) :
    update_led e.rx.byte1 = [] ∧
    (loopStep s e).1.ledAfter = s.led ∧
    (loopStep s e).2.led = s.led ∧
    (loopStep (loopStep s e).2 e2).1.sent.byte1 = e.rx.byte1 := by
  have hupd : update_led e.rx.byte1 = [] := by
    simp [update_led, h1, h0]
  rw [loopStep_success s e h]
  refine ⟨hupd, ?_, ?_, ?_⟩
  · show applyWrites s.led (update_led e.rx.byte1) = s.led
    rw [hupd]
    rfl
  · show applyWrites s.led (update_led e.rx.byte1) = s.led
    rw [hupd]
    rfl
  · rw [loopStep_sent]
    rfl

/-- Witness for C9: a validated exchange with payload 0x02 while the LED is
on performs no write and leaves the LED on. -/
theorem claim_C9_out_of_domain_echo_witness :
    update_led 0x02 = [] ∧
    (loopStep
      { rx := { byte0 := 0, byte1 := 0, byte2 := 0 },
        tx := { byte0 := 0, byte1 := 0, byte2 := 0 },
        led := Led.on, halted := false }
      ⟨TransferResult.complete, ⟨0x01, 0x02, 0x17⟩⟩).2.led = Led.on := by
  have h := claim_C9_out_of_domain_echo
    { rx := { byte0 := 0, byte1 := 0, byte2 := 0 },
      tx := { byte0 := 0, byte1 := 0, byte2 := 0 },
      led := Led.on, halted := false }
    ⟨TransferResult.complete, ⟨0x01, 0x02, 0x17⟩⟩
    ⟨TransferResult.complete, ⟨0x01, 0x00, 0x17⟩⟩
    (by decide) (by decide) (by decide)
  exact ⟨h.1, h.2.2.1⟩

/-- C4: whenever `read_packet` reports anything other than
`TRANSFER_COMPLETE`, the iteration takes the `CY_ASSERT` trap: the actuator
is not invoked in that iteration, the state is halted, and no further
iteration produces any exchange or actuation. -/
theorem claim_C4_fatal_on_failure (s : LoopState) (e : Exchange)
    (h : read_packet_status e ≠ RwStatus.TRANSFER_COMPLETE) :
    (loopStep s e).1.ledCall = none ∧
    (loopStep s e).1.trapped = true ∧
    (loopStep s e).2.halted = true ∧
    (∀ es : List Exchange, runLoop (loopStep s e).2 es = ([], (loopStep s e).2)) := by
  rw [loopStep_failure s e h]
  exact ⟨rfl, rfl, rfl, fun es => runLoop_halted _ rfl es⟩

/-- Witness for C4: a completed exchange carrying a bad-SOP packet
`[0x02, 0x01, 0x17]` traps without invoking the actuator, and a further
valid exchange produces nothing. -/
theorem claim_C4_fatal_on_failure_witness :
    (loopStep initState ⟨TransferResult.complete, ⟨0x02, 0x01, 0x17⟩⟩).1.ledCall = none ∧
    (loopStep initState ⟨TransferResult.complete, ⟨0x02, 0x01, 0x17⟩⟩).2.halted = true ∧
    runLoop (loopStep initState ⟨TransferResult.complete, ⟨0x02, 0x01, 0x17⟩⟩).2
        [⟨TransferResult.complete, ⟨0x01, 0x01, 0x17⟩⟩] =
      ([], (loopStep initState ⟨TransferResult.complete, ⟨0x02, 0x01, 0x17⟩⟩).2) := by
  have h := claim_C4_fatal_on_failure initState
    ⟨TransferResult.complete, ⟨0x02, 0x01, 0x17⟩⟩ (by decide)
  exact ⟨h.1, h.2.2.1, h.2.2.2 _⟩

/-- C10: the control loop is deterministic — two runs fed the same sequence
of exchange results (transport status and received bytes) produce the same
trace of outbound packets and actuator calls, from the loop alone or through
`main_model`; no other input influences the observable behavior. -/
theorem claim_C10_deterministic (ins1 ins2 : List Exchange) (h : ins1 = ins2) :
    runLoop initState ins1 = runLoop initState ins2 ∧
    (runLoop initState ins1).1 = (runLoop initState ins2).1 ∧
    (∀ (bspResult : Nat) (slaveStatus : InitStatus),
       main_model bspResult slaveStatus ins1 = main_model bspResult slaveStatus ins2) := by
  subst h
  exact ⟨rfl, rfl, fun _ _ => rfl⟩

/-- Witness for C10: two identical two-exchange input sequences yield
identical traces. -/
theorem claim_C10_deterministic_witness :
    (runLoop initState
      [⟨TransferResult.complete, ⟨0x01, 0x01, 0x17⟩⟩,
       ⟨TransferResult.complete, ⟨0x01, 0x00, 0x17⟩⟩]).1 =
    (runLoop initState
      [⟨TransferResult.complete, ⟨0x01, 0x01, 0x17⟩⟩,
       ⟨TransferResult.complete, ⟨0x01, 0x00, 0x17⟩⟩]).1 :=
  (claim_C10_deterministic
    [⟨TransferResult.complete, ⟨0x01, 0x01, 0x17⟩⟩,
     ⟨TransferResult.complete, ⟨0x01, 0x00, 0x17⟩⟩]
    [⟨TransferResult.complete, ⟨0x01, 0x01, 0x17⟩⟩,
     ⟨TransferResult.complete, ⟨0x01, 0x00, 0x17⟩⟩] rfl).2.1

/-- C7: if board initialization or `init_slave` fails at startup, `main`
traps before the control loop: the outcome is `trappedAtInit` and is never a
`ran` outcome, so no exchange is performed and the actuator is never
invoked, whatever the master would have sent. -/
theorem claim_C7_init_failure_halts (bspResult : Nat) (slaveStatus : InitStatus)
    (inputs : List Exchange)
    (h : bspResult ≠ CY_RSLT_SUCCESS ∨ slaveStatus = InitStatus.INIT_FAILURE) :
    main_model bspResult slaveStatus inputs = MainOutcome.trappedAtInit ∧
    ∀ (trace : List IterOut) (final : LoopState),
      main_model bspResult slaveStatus inputs ≠ MainOutcome.ran trace final := by
  have hm : main_model bspResult slaveStatus inputs = MainOutcome.trappedAtInit := by
    rcases h with h | h
    · simp [main_model, h]
    · unfold main_model
      split
      · rfl
      · simp [h]
  refine ⟨hm, fun trace final => ?_⟩
  rw [hm]
  intro hcon
  cases hcon

/-- Witness for C7: with `init_slave` reporting `INIT_FAILURE`, `main`
ends trapped at initialization even though a valid exchange was waiting. -/
theorem claim_C7_init_failure_halts_witness :
    main_model CY_RSLT_SUCCESS InitStatus.INIT_FAILURE
      [⟨TransferResult.complete, ⟨0x01, 0x01, 0x17⟩⟩] = MainOutcome.trappedAtInit :=
  (claim_C7_init_failure_halts CY_RSLT_SUCCESS InitStatus.INIT_FAILURE
    [⟨TransferResult.complete, ⟨0x01, 0x01, 0x17⟩⟩] (Or.inr rfl)).1

theorem runLoop_success_length (es : List Exchange) :
    ∀ s : LoopState, s.halted = false →
      (∀ e ∈ es, read_packet_status e = RwStatus.TRANSFER_COMPLETE) →
      (runLoop s es).1.length = es.length ∧ (runLoop s es).2.halted = false := by
  induction es with
  | nil =>
    intro s hs _
    exact ⟨rfl, hs⟩
  | cons e es ih =>
    intro s hs hall
    rw [runLoop_cons_active s hs]
    have he := hall e (List.mem_cons_self e es)
    have hs' : (loopStep s e).2.halted = false := by
      rw [loopStep_success s e he]
    have ihr := ih (loopStep s e).2 hs' (fun x hx => hall x (List.mem_cons_of_mem e hx))
    exact ⟨by simp [ihr.1], ihr.2⟩

theorem runLoop_length_or_halted (es : List Exchange) :
    ∀ s : LoopState,
      (runLoop s es).1.length = es.length ∨ (runLoop s es).2.halted = true := by
  induction es with
  | nil =>
    intro s
    exact Or.inl rfl
  | cons e es ih =>
    intro s
    cases hhal : s.halted with
    | true =>
      rw [runLoop_halted s hhal]
      exact Or.inr hhal
    | false =>
      rw [runLoop_cons_active s hhal]
      rcases ih (loopStep s e).2 with h | h
      · exact Or.inl (by simp [h])
      · exact Or.inr h

/-- C8: the loop repeats unconditionally — on any input sequence in which
every exchange completes, the loop performs one iteration per exchange and
ends un-halted (it would keep going); and on any input sequence at all, the
loop either consumes every exchange or has entered the assert trap: the trap
is the only way out. -/
theorem claim_C8_forever_loop :
    (∀ inputs : List Exchange,
       (∀ e ∈ inputs, read_packet_status e = RwStatus.TRANSFER_COMPLETE) →
         (runLoop initState inputs).1.length = inputs.length ∧
         (runLoop initState inputs).2.halted = false) ∧
    (∀ inputs : List Exchange,
       (runLoop initState inputs).1.length = inputs.length ∨
       (runLoop initState inputs).2.halted = true) :=
  ⟨fun inputs h => runLoop_success_length inputs initState rfl h,
   fun inputs => runLoop_length_or_halted inputs initState⟩

/-- Witness for C8: a two-exchange all-success run performs two iterations
and ends un-halted. -/
theorem claim_C8_forever_loop_witness :
    (runLoop initState
      [⟨TransferResult.complete, ⟨0x01, 0x01, 0x17⟩⟩,
       ⟨TransferResult.complete, ⟨0x01, 0x00, 0x17⟩⟩]).1.length = 2 ∧
    (runLoop initState
      [⟨TransferResult.complete, ⟨0x01, 0x01, 0x17⟩⟩,
       ⟨TransferResult.complete, ⟨0x01, 0x00, 0x17⟩⟩]).2.halted = false := by
  have h := claim_C8_forever_loop.1
    [⟨TransferResult.complete, ⟨0x01, 0x01, 0x17⟩⟩,
     ⟨TransferResult.complete, ⟨0x01, 0x00, 0x17⟩⟩] (by decide)
  exact ⟨h.1, h.2⟩

/-- Counterexample to C1 as stated: after a validated exchange whose payload
0x05 is outside the ON/OFF domain, the next outbound payload is the raw echo
0x05, not the payload encoding of the OutputState that resulted from that
exchange (the LED stayed OFF, encoded 0x00). -/
theorem claim_C1_counterexample :
    ((runLoop initState
      [⟨TransferResult.complete, ⟨0x01, 0x05, 0x17⟩⟩,
       ⟨TransferResult.complete, ⟨0x01, 0x00, 0x17⟩⟩]).1.getD 1 default).sent.byte1 ≠
      ledPayload
        (((runLoop initState
          [⟨TransferResult.complete, ⟨0x01, 0x05, 0x17⟩⟩,
           ⟨TransferResult.complete, ⟨0x01, 0x00, 0x17⟩⟩]).1.getD 0 default).ledAfter) := by
  decide

theorem runLoop_pipeline (es : List Exchange) :
    ∀ s : LoopState, s.halted = false → s.rx.byte1 = ledPayload s.led →
      (∀ e ∈ es, read_packet_status e = RwStatus.TRANSFER_COMPLETE ∧
         (e.rx.byte1 = CYBSP_LED_STATE_ON ∨ e.rx.byte1 = CYBSP_LED_STATE_OFF)) →
      (runLoop s es).1.length = es.length ∧
      (0 < es.length → ((runLoop s es).1.getD 0 default).sent.byte1 = s.rx.byte1) ∧
      (∀ i, i + 1 < es.length →
         ((runLoop s es).1.getD (i + 1) default).sent.byte1 =
           ledPayload (((runLoop s es).1.getD i default).ledAfter)) := by
  induction es with
  | nil =>
    intro s _ _ _
    refine ⟨rfl, ?_, ?_⟩
    · intro h0
      exact absurd h0 (by simp)
    · intro i hi
      exact absurd hi (by simp)
  | cons e es ih =>
    intro s hs hinv hall
    have he := hall e (List.mem_cons_self e es)
    have hstep := loopStep_success s e he.1
    have hs' : (loopStep s e).2.halted = false := by rw [hstep]
    have hinv' : (loopStep s e).2.rx.byte1 = ledPayload (loopStep s e).2.led := by
      rw [hstep]
      show e.rx.byte1 = ledPayload (applyWrites s.led (update_led e.rx.byte1))
      rcases he.2 with h1 | h0
      · rw [h1]
        simp [update_led, CYBSP_LED_STATE_ON, CYBSP_LED_STATE_OFF,
          applyWrites, applyWrite, ledPayload]
      · rw [h0]
        simp [update_led, CYBSP_LED_STATE_ON, CYBSP_LED_STATE_OFF,
          applyWrites, applyWrite, ledPayload]
    have ih' := ih (loopStep s e).2 hs' hinv'
      (fun x hx => hall x (List.mem_cons_of_mem e hx))
    rw [runLoop_cons_active s hs]
    refine ⟨by simp [ih'.1], ?_, ?_⟩
    · intro _
      rw [List.getD_cons_zero, loopStep_sent]
      rfl
    · intro i hi
      rw [List.getD_cons_succ]
      cases i with
      | zero =>
        rw [List.getD_cons_zero]
        have hlen : 0 < es.length := by
          simpa using hi
        rw [ih'.2.1 hlen, hinv', hstep]
      | succ j =>
        rw [List.getD_cons_succ]
        have hj : j + 1 < es.length := by
          simp at hi
          omega
        exact ih'.2.2 j hj

/-- C1 (amended): for runs in which every exchange is validated and carries
an in-domain payload (0x00 or 0x01), the outbound payload of exchange N
equals the payload encoding of the OutputState resulting from exchange
N−1's command, and exchange 1's outbound payload equals the initial OFF
state 0x00.  (Without the in-domain restriction the loop echoes the raw
previous payload byte, which need not encode the OutputState.) -/
theorem claim_C1_pipelining_amended (inputs : List Exchange)
    (h : ∀ e ∈ inputs, read_packet_status e = RwStatus.TRANSFER_COMPLETE ∧
       (e.rx.byte1 = CYBSP_LED_STATE_ON ∨ e.rx.byte1 = CYBSP_LED_STATE_OFF)) :
    (runLoop initState inputs).1.length = inputs.length ∧
    (0 < inputs.length →
       ((runLoop initState inputs).1.getD 0 default).sent.byte1 = CYBSP_LED_STATE_OFF) ∧
    (∀ i, i + 1 < inputs.length →
       ((runLoop initState inputs).1.getD (i + 1) default).sent.byte1 =
         ledPayload (((runLoop initState inputs).1.getD i default).ledAfter)) := by
  have hp := runLoop_pipeline inputs initState rfl rfl h
  exact ⟨hp.1, fun h0 => hp.2.1 h0, hp.2.2⟩

/-- Witness for C1 (amended): on the run ON-command then OFF-command, the
first outbound payload is 0x00 and the second equals the encoding of the
LED state after the first exchange. -/
theorem claim_C1_pipelining_amended_witness :
    ((runLoop initState
      [⟨TransferResult.complete, ⟨0x01, 0x01, 0x17⟩⟩,
       ⟨TransferResult.complete, ⟨0x01, 0x00, 0x17⟩⟩]).1.getD 0 default).sent.byte1 =
      CYBSP_LED_STATE_OFF ∧
    ((runLoop initState
      [⟨TransferResult.complete, ⟨0x01, 0x01, 0x17⟩⟩,
       ⟨TransferResult.complete, ⟨0x01, 0x00, 0x17⟩⟩]).1.getD 1 default).sent.byte1 =
      ledPayload
        (((runLoop initState
          [⟨TransferResult.complete, ⟨0x01, 0x01, 0x17⟩⟩,
           ⟨TransferResult.complete, ⟨0x01, 0x00, 0x17⟩⟩]).1.getD 0 default).ledAfter) := by
  have h := claim_C1_pipelining_amended
    [⟨TransferResult.complete, ⟨0x01, 0x01, 0x17⟩⟩,
     ⟨TransferResult.complete, ⟨0x01, 0x00, 0x17⟩⟩] (by decide)
  exact ⟨h.2.1 (by decide), h.2.2 0 (by decide)⟩

end SpiSlave
